import Mathlib

/-!
Shallow embedding of the Migration Status Resolver from
`src/components/molecules/Migration/index.tsx`: the pure decision logic
mapping a fact snapshot (migration phase, threshold/deadline flags,
pool-share balances, block height) and a content catalog to a
presentation triple `(title, message, action)`, together with the
visibility decision and the duplicate-lock scan performed by the
component's effect.
-/

namespace Migration

/-- Modelled from the spec: the `MigrationStatus` enum lives in
`providers/Migration`, which is not part of the sources here; the spec's
data model names exactly the three lifecycle values
`NOT_STARTED | STARTED | COMPLETED`. -/
inductive MigrationStatus where
  | NOT_STARTED
  | STARTED
  | COMPLETED
deriving DecidableEq

/-- The `MigrationAction` enum of `index.tsx` (lines 49-57). -/
inductive MigrationAction where
  | NONE
  | START_MIGRATION
  | COMPLETE_MIGRATION
  | CANCEL_MIGRATION
  | LOCK_SHARES
  | REMOVE_SHARES
  | VIEW_V4_ASSET
deriving DecidableEq

/-- One `{title, text}` pair of localized copy. -/
structure ContentEntry where
  title : String
  text : String
deriving DecidableEq

/-- The `content.liquidityProvider` catalog: the five keys required by the
GraphQL query of `index.tsx` (lines 20-41). -/
structure ContentCatalog where
  migrationNotStarted : ContentEntry
  migrationStarted : ContentEntry
  poolSharesLocked : ContentEntry
  deadlineMetThresholdMet : ContentEntry
  migrationComplete : ContentEntry
deriving DecidableEq

/-- The fact snapshot: the values the component reads from
`useMigrationStatus()` and `useWeb3()` (lines 65-75).  Numeric on-chain
amounts are decimal strings; `block` is a plain integer; `lockedSharesV3`,
`accountId` and `poolShareOwners` may be absent (`null`/`undefined`). -/
structure FactSnapshot where
  status : MigrationStatus
  thresholdMet : Bool
  deadlinePassed : Bool
  poolShares : String
  lockedSharesV3 : Option String
  deadline : String
  block : Int
  canAddShares : Bool
  accountId : Option String
  poolShareOwners : Option (List String)

/-- The resolver's output triple. -/
structure PresentationResult where
  title : String
  message : String
  action : MigrationAction
deriving DecidableEq

/-- Decimal digit test. -/
def isDigit (c : Char) : Bool := '0' ≤ c && c ≤ '9'

/-- Value of a list of decimal digits. -/
def digitsToNat (l : List Char) : Nat :=
  l.foldl (fun a c => a * 10 + (c.toNat - 48)) 0

/-- JavaScript `Number(s)` on the decimal-string domain of the fact
snapshot: optional surrounding spaces, optional sign, then digits with an
optional fractional part.  The empty (or all-space) string converts to 0;
anything else that does not match converts to `NaN`, modelled as `none`.
(The exotic `Number` forms - hexadecimal, exponents, `Infinity` - do not
arise for on-chain decimal amounts and are modelled as `NaN` as well.) -/
def jsNumber (s : String) : Option Rat :=
  let l := ((s.toList.dropWhile (fun c => c = ' ')).reverse.dropWhile (fun c => c = ' ')).reverse
  match l with
  | [] => some 0
  | l =>
    let signAndRest : Int × List Char :=
      match l with
      | '-' :: t => (-1, t)
      | '+' :: t => (1, t)
      | t => (1, t)
    let sign := signAndRest.1
    let l' := signAndRest.2
    let intPart := l'.takeWhile isDigit
    let rest := l'.dropWhile isDigit
    match rest with
    | [] =>
      if intPart = [] then none
      else some (mkRat (sign * (digitsToNat intPart : Int)) 1)
    | '.' :: frac =>
      if frac.all isDigit && (intPart ≠ [] || frac ≠ []) then
        some (mkRat (sign * (digitsToNat (intPart ++ frac) : Int)) (10 ^ frac.length))
      else none
    | _ => none

/-- The coercion `isNaN(Number(x)) ? 0 : Number(x)` used at lines 98 and
182 of `index.tsx`. -/
def coerceNumber (s : String) : Rat :=
  (jsNumber s).getD 0

/-- JavaScript `parseInt(s)`: skip leading spaces, optional sign, then the
longest digit prefix; `NaN` (modelled `none`) when no digit is found.
Trailing garbage is ignored. -/
def jsParseInt (s : String) : Option Int :=
  let l := s.toList.dropWhile (fun c => c = ' ')
  let signAndRest : Int × List Char :=
    match l with
    | '-' :: t => (-1, t)
    | '+' :: t => (1, t)
    | t => (1, t)
  let ds := signAndRest.2.takeWhile isDigit
  if ds = [] then none
  else some (signAndRest.1 * (digitsToNat ds : Int))

/-- Rendering of an integer-or-NaN value inside a template string. -/
def renderJsInt : Option Int → String
  | some n => toString n
  | none => "NaN"

/-- JavaScript truthiness of an optional string: `null`, `undefined` and
the empty string are falsy. -/
def jsFalsy : Option String → Bool
  | none => true
  | some s => s = ""

/-- The default `lockedSharesV3 || '0'` at line 82. -/
def lockedOrZero (lockedSharesV3 : Option String) : String :=
  match lockedSharesV3 with
  | none => "0"
  | some s => if s = "" then "0" else s

/-- Modelled from the spec: `Web3.utils.fromWei` (the web3 library is not
part of the sources here) converts a smallest-unit integer decimal string
to a human-scaled decimal string under the 18-decimal fixed-point
convention, dropping trailing fractional zeros. -/
def fromWei (wei : String) : String :=
  let n := digitsToNat wei.toList
  let intPart := n / 10 ^ 18
  let fracPart := n % 10 ^ 18
  if fracPart = 0 then toString intPart
  else
    let fracDigits := (toString fracPart).toList
    let padded := List.replicate (18 - fracDigits.length) '0' ++ fracDigits
    let trimmed := (padded.reverse.dropWhile (fun c => c = '0')).reverse
    toString intPart ++ "." ++ String.mk trimmed

/-- `getLockedSharesMessage` (lines 80-84).  It closes over the raw
component-scope `poolShares` string and `lockedSharesV3`. -/
def getLockedSharesMessage (snap : FactSnapshot) : String :=
  "\n\nYou have " ++ snap.poolShares ++ " pool shares\n\nYou have locked " ++
    fromWei (lockedOrZero snap.lockedSharesV3) ++ " shares "

/-- `getRemainingBlocksMessage` (lines 86-90): renders
`parseInt(deadline) - block`. -/
def getRemainingBlocksMessage (snap : FactSnapshot) : String :=
  "\n\n" ++ renderJsInt ((jsParseInt snap.deadline).map (fun n => n - snap.block)) ++
    " blocks left for migration deadline"

/-- `getMessageAndActionForLiquidityProvider` (lines 92-153): the ordered
decision rules of the resolver.  The numeric comparisons use the coerced
`poolShares` of line 98; the closure variables (`content`, `canAddShares`,
the raw `poolShares`, `lockedSharesV3`, `deadline`, `block`) are the
snapshot and catalog fields. -/
def getMessageAndActionForLiquidityProvider (content : ContentCatalog)
    (snap : FactSnapshot) : PresentationResult :=
  let poolShares : Rat := coerceNumber snap.poolShares
  if snap.status = MigrationStatus.COMPLETED then
    ⟨content.migrationComplete.title, content.migrationComplete.text,
      MigrationAction.NONE⟩
  else if snap.status = MigrationStatus.NOT_STARTED then
    ⟨content.migrationNotStarted.title, content.migrationNotStarted.text,
      MigrationAction.NONE⟩
  else if snap.status ≠ MigrationStatus.NOT_STARTED ∧ ¬snap.deadlinePassed ∧
      poolShares > 0 ∧ snap.canAddShares then
    ⟨content.migrationStarted.title,
      content.migrationStarted.text ++ getLockedSharesMessage snap ++
        getRemainingBlocksMessage snap,
      MigrationAction.LOCK_SHARES⟩
  else if snap.status ≠ MigrationStatus.NOT_STARTED ∧ ¬snap.deadlinePassed ∧
      poolShares ≤ 0 then
    ⟨content.poolSharesLocked.title,
      content.poolSharesLocked.text ++ getLockedSharesMessage snap ++
        getRemainingBlocksMessage snap,
      MigrationAction.LOCK_SHARES⟩
  else if snap.status ≠ MigrationStatus.NOT_STARTED ∧
      (snap.deadlinePassed ∨ snap.thresholdMet) ∧ ¬snap.canAddShares then
    ⟨content.deadlineMetThresholdMet.title,
      content.deadlineMetThresholdMet.text ++ getLockedSharesMessage snap,
      MigrationAction.NONE⟩
  else
    ⟨"No migration information available", "", MigrationAction.NONE⟩

/-- The visibility condition of the effect (lines 182-185): show iff the
coerced pool-share number is positive, or `lockedSharesV3` is truthy and
not the literal string `"0"`. -/
def shouldShow (snap : FactSnapshot) : Bool :=
  let poolSharesNumber := coerceNumber snap.poolShares
  decide (poolSharesNumber > 0) ||
    (!jsFalsy snap.lockedSharesV3 && snap.lockedSharesV3 ≠ some "0")

/-- The duplicate-lock scan of lines 187-193, as the loop writes it: start
from the unset flag and set it on every index whose owner equals the
participant. -/
def hasAlreadyLocked (participant : String) (shareOwners : List String) : Bool :=
  shareOwners.foldl (fun acc owner => if participant = owner then true else acc) false

/-- The component-local mutable slots (lines 60-64). -/
structure ComponentState where
  title : Option String
  message : Option String
  showMigration : Bool
  action : Option MigrationAction
  sharesLocked : Option Bool
deriving DecidableEq

/-- The `useState` initial values (lines 60-64). -/
def initialState : ComponentState :=
  ⟨none, none, false, none, none⟩

/-- One run of the effect body (lines 180-205) on the current component
state: bail out on a falsy `accountId`; otherwise possibly set
`showMigration`, possibly set `sharesLocked`, and always store the
resolver's triple. -/
def effectStep (content : ContentCatalog) (st : ComponentState)
    (snap : FactSnapshot) : ComponentState :=
  if jsFalsy snap.accountId then st
  else
    let shown : Bool := if shouldShow snap then true else st.showMigration
    let locked : Option Bool :=
      match snap.poolShareOwners with
      | none => st.sharesLocked
      | some owners =>
        if hasAlreadyLocked (snap.accountId.getD "") owners then some true
        else st.sharesLocked
    let r := getMessageAndActionForLiquidityProvider content snap
    ⟨some r.title, some r.message, shown, some r.action, locked⟩

/-- A concrete content catalog with distinguishable entries, used for
concrete evaluations. -/
def cat0 : ContentCatalog :=
  ⟨⟨"Not started title", "Not started text"⟩,
   ⟨"Started title", "Started text"⟩,
   ⟨"Shares locked title", "Shares locked text"⟩,
   ⟨"Deadline met title", "Deadline met text"⟩,
   ⟨"Complete title", "Complete text"⟩⟩

/-- Coercion of a non-numeric string yields 0 (`Number` gives `NaN`, the
guard replaces it). -/
theorem coerceNumber_nan : coerceNumber "not-a-number" = 0 := by decide

/-- Coercion of the literal string `"0"` yields 0. -/
theorem coerceNumber_zero : coerceNumber "0" = 0 := by decide

/-- The duplicate-lock fold equals a membership test, for any starting
accumulator. -/
theorem lockedFold_spec (p : String) (l : List String) (b : Bool) :
    l.foldl (fun acc owner => if p = owner then true else acc) b = true ↔
      (b = true ∨ p ∈ l) := by
  induction l generalizing b with
  | nil => simp
  | cons x xs ih =>
    simp only [List.foldl_cons, List.mem_cons, ih]
    by_cases h : p = x <;> simp [h]

/-- One effect run never clears the `showMigration` flag. -/
theorem effectStep_shown_mono (content : ContentCatalog) (st : ComponentState)
    (snap : FactSnapshot) (h : st.showMigration = true) :
    (effectStep content st snap).showMigration = true := by
  unfold effectStep
  split
  · exact h
  · by_cases hs : shouldShow snap = true <;> simp [hs, h]

/-- Claim C6: whenever the snapshot's phase is `COMPLETED`, the resolver
returns the `migrationComplete` title and text with action `NONE`,
regardless of every other field and of the catalog. -/
theorem C6_completed_resolve (content : ContentCatalog) (snap : FactSnapshot)
    (h : snap.status = MigrationStatus.COMPLETED) :
    getMessageAndActionForLiquidityProvider content snap =
      ⟨content.migrationComplete.title, content.migrationComplete.text,
        MigrationAction.NONE⟩ := by
  unfold getMessageAndActionForLiquidityProvider
  rw [h]
  rfl

/-- A completed-phase snapshot with every other field exercised. -/
def snapC6 : FactSnapshot :=
  ⟨.COMPLETED, true, true, "7", some "1", "3", 9, false, some "0xA", some ["0xA"]⟩

/-- Witness for C6 at a concrete completed-phase snapshot. -/
theorem C6_completed_resolve_witness :
    getMessageAndActionForLiquidityProvider cat0 snapC6 =
      ⟨cat0.migrationComplete.title, cat0.migrationComplete.text,
        MigrationAction.NONE⟩ :=
  C6_completed_resolve cat0 snapC6 rfl

/-- Claim C8: the duplicate-lock scan is a pure membership test over the
owner sequence (duplicates permitted), and the two concrete examples
behave as stated. -/
theorem C8_hasAlreadyLocked_membership :
    (∀ (p : String) (owners : List String),
        hasAlreadyLocked p owners = true ↔ p ∈ owners) ∧
      hasAlreadyLocked "0xA" ["0xB", "0xA", "0xA"] = true ∧
      hasAlreadyLocked "0xC" [] = false := by
  refine ⟨fun p owners => ?_, by decide, by decide⟩
  unfold hasAlreadyLocked
  simpa using lockedFold_spec p owners false

/-- Claim C9: with a null participant address the effect changes nothing -
no visibility update, no resolver output is stored - and from the initial
state the feature stays hidden, whatever `poolShares` and
`lockedSharesV3` hold. -/
theorem C9_null_account_no_compute (content : ContentCatalog)
    (st : ComponentState) (snap : FactSnapshot) (h : snap.accountId = none) :
    effectStep content st snap = st ∧
      (effectStep content initialState snap).showMigration = false := by
  have hf : jsFalsy snap.accountId = true := by rw [h]; rfl
  constructor
  · unfold effectStep
    rw [if_pos hf]
  · unfold effectStep
    rw [if_pos hf]
    rfl

/-- A null-account snapshot that would otherwise pass the visibility
check. -/
def snapC9 : FactSnapshot :=
  ⟨.STARTED, false, false, "5", some "12", "100", 50, true, none, some ["0xB"]⟩

/-- Witness for C9 at a concrete null-account snapshot. -/
theorem C9_null_account_no_compute_witness :
    effectStep cat0 initialState snapC9 = initialState ∧
      (effectStep cat0 initialState snapC9).showMigration = false :=
  C9_null_account_no_compute cat0 initialState snapC9 rfl

/-- Claim C10: visibility is monotone across re-evaluations - once
`showMigration` is true, running the effect over any later sequence of
snapshots leaves it true (the flag is only ever set, never cleared). -/
theorem C10_visibility_monotone (content : ContentCatalog)
    (snaps : List FactSnapshot) (st : ComponentState)
    (h : st.showMigration = true) :
    (snaps.foldl (effectStep content) st).showMigration = true := by
  induction snaps generalizing st with
  | nil => simpa using h
  | cons s ss ih => exact ih _ (effectStep_shown_mono content st s h)

/-- A component state in which the feature is already shown. -/
def shownState : ComponentState := ⟨none, none, true, none, none⟩

/-- A later snapshot whose visibility condition is false (zero pool
shares, no locked shares). -/
def snapC10 : FactSnapshot :=
  ⟨.STARTED, false, false, "0", none, "100", 50, true, some "0xA", none⟩

/-- Witness for C10: a snapshot that fails the visibility condition does
not hide the already-shown feature. -/
theorem C10_visibility_monotone_witness :
    shouldShow snapC10 = false ∧
      (([snapC10].foldl (effectStep cat0) shownState)).showMigration = true :=
  ⟨by decide, C10_visibility_monotone cat0 [snapC10] shownState rfl⟩

/-- A snapshot with zero pool shares, deadline open and locks closed:
the fourth rule fires. -/
def snapC1 : FactSnapshot :=
  ⟨.STARTED, false, false, "0", none, "100", 50, false, some "0xA", none⟩

/-- Counterexample to claim C1 as stated: the fourth decision rule does
not test `canAddShares`, so the resolver returns `LOCK_SHARES` on a
snapshot with `canAddShares = false`. -/
theorem C1_lock_requires_canAddShares_counterexample :
    (getMessageAndActionForLiquidityProvider cat0 snapC1).action =
        MigrationAction.LOCK_SHARES ∧
      snapC1.canAddShares = false := by decide

/-- Claim C1 (amended): the resolver returns `LOCK_SHARES` only when the
phase is `STARTED` (neither `NOT_STARTED` nor `COMPLETED`) and the
deadline has not passed; `canAddShares` is not necessary, since the
fourth rule omits it. -/
theorem C1_lock_action_invariant (content : ContentCatalog) (snap : FactSnapshot)
    (h : (getMessageAndActionForLiquidityProvider content snap).action =
      MigrationAction.LOCK_SHARES) :
    snap.status = MigrationStatus.STARTED ∧ snap.deadlinePassed = false := by
  unfold getMessageAndActionForLiquidityProvider at h
  cases hst : snap.status with
  | NOT_STARTED => rw [hst] at h; simp at h
  | COMPLETED => rw [hst] at h; simp at h
  | STARTED =>
    refine ⟨rfl, ?_⟩
    cases hdp : snap.deadlinePassed with
    | false => rfl
    | true =>
      cases hcan : snap.canAddShares <;> rw [hst, hdp, hcan] at h <;> simp at h

/-- A snapshot on which the resolver's third rule grants `LOCK_SHARES`. -/
def snapC1w : FactSnapshot :=
  ⟨.STARTED, false, false, "5", none, "100", 50, true, some "0xA", none⟩

/-- Witness for C1 (amended) at a concrete `LOCK_SHARES` outcome. -/
theorem C1_lock_action_invariant_witness :
    snapC1w.status = MigrationStatus.STARTED ∧ snapC1w.deadlinePassed = false :=
  C1_lock_action_invariant cat0 snapC1w (by decide)

/-- A gate-only snapshot: the given pool-share and locked-share values,
remaining fields fixed. -/
def gateSnap (ps : String) (ls : Option String) : FactSnapshot :=
  ⟨.STARTED, false, false, ps, ls, "100", 50, true, some "0xA", none⟩

/-- Counterexample to claim C2 as stated: an empty-string
`lockedSharesV3` is non-null and differs from `"0"`, yet the gate is
false, because the code's truthiness test also rejects the empty
string. -/
theorem C2_gate_iff_counterexample :
    ¬ (shouldShow (gateSnap "0" (some "")) = true ↔
        (0 < coerceNumber (gateSnap "0" (some "")).poolShares ∨
          ((gateSnap "0" (some "")).lockedSharesV3 ≠ none ∧
            (gateSnap "0" (some "")).lockedSharesV3 ≠ some "0"))) := by decide

/-- Claim C2 (amended): the gate is true iff the coerced pool-share
number is positive, or `lockedSharesV3` is present, non-empty and not the
literal `"0"`; the three concrete examples hold as stated. -/
theorem C2_gate_characterization :
    (∀ snap : FactSnapshot, shouldShow snap = true ↔
        (0 < coerceNumber snap.poolShares ∨
          ∃ s, snap.lockedSharesV3 = some s ∧ s ≠ "" ∧ s ≠ "0")) ∧
      shouldShow (gateSnap "5" none) = true ∧
      shouldShow (gateSnap "0" (some "12")) = true ∧
      shouldShow (gateSnap "0" none) = false := by
  refine ⟨fun snap => ?_, by decide, by decide, by decide⟩
  cases hl : snap.lockedSharesV3 with
  | none => simp [shouldShow, jsFalsy, hl]
  | some s =>
    by_cases hs : s = ""
    · simp [shouldShow, jsFalsy, hl, hs]
    · by_cases h0 : s = "0"
      · simp [shouldShow, jsFalsy, hl, hs, h0]
      · simp [shouldShow, jsFalsy, hl, hs, h0]

/-- The rule-order scenario of claim C3. -/
def snapC3 : FactSnapshot :=
  ⟨.STARTED, true, true, "3", none, "100", 50, true, some "0xA", none⟩

/-- Counterexample to claim C3 as stated: on that snapshot the resolver
returns the fallback with action `NONE`, not the `migrationStarted`
outcome with `LOCK_SHARES` - the third rule requires the deadline not to
have passed. -/
theorem C3_rule_order_counterexample :
    (getMessageAndActionForLiquidityProvider cat0 snapC3).action =
        MigrationAction.NONE ∧
      (getMessageAndActionForLiquidityProvider cat0 snapC3).title =
        "No migration information available" ∧
      (getMessageAndActionForLiquidityProvider cat0 snapC3).title ≠
        cat0.migrationStarted.title := by decide

/-- Claim C3 (amended): with `phase = STARTED`, `deadlinePassed = true`,
`thresholdMet = true`, `poolShares = "3"`, `canAddShares = true`, no rule
matches (rules 3 and 4 need an open deadline, rule 5 needs locks closed)
and the resolver returns the fallback triple, for every catalog and all
remaining fields. -/
theorem C3_rule_order_fallback (content : ContentCatalog) (ls : Option String)
    (dl : String) (blk : Int) (acc : Option String) (own : Option (List String)) :
    getMessageAndActionForLiquidityProvider content
        ⟨MigrationStatus.STARTED, true, true, "3", ls, dl, blk, true, acc, own⟩ =
      ⟨"No migration information available", "", MigrationAction.NONE⟩ := by
  rfl

/-- The claim-C4 snapshot with a non-numeric pool-share string. -/
def snapC4a : FactSnapshot :=
  ⟨.STARTED, false, false, "not-a-number", none, "100", 50, true, some "0xA", none⟩

/-- The claim-C4 snapshot with pool shares `"0"`. -/
def snapC4b : FactSnapshot :=
  ⟨.STARTED, false, false, "0", none, "100", 50, true, some "0xA", none⟩

/-- Counterexample to claim C4 as stated: the locked-shares suffix
interpolates the raw component-scope `poolShares` string, not the coerced
number, so the two messages differ. -/
theorem C4_nan_message_counterexample :
    (getMessageAndActionForLiquidityProvider cat0 snapC4a).message ≠
      (getMessageAndActionForLiquidityProvider cat0 snapC4b).message := by decide

/-- Claim C4 (amended): `poolShares = "not-a-number"` and
`poolShares = "0"` coerce to the same number, so the resolver picks the
same rule: the title and the action agree for every catalog and all other
fields; only the message can differ, through the raw string in the
locked-shares suffix. -/
theorem C4_nan_title_action_equiv (content : ContentCatalog)
    (st : MigrationStatus) (tm dp cas : Bool) (ls : Option String) (dl : String)
    (blk : Int) (acc : Option String) (own : Option (List String)) :
    (getMessageAndActionForLiquidityProvider content
          ⟨st, tm, dp, "not-a-number", ls, dl, blk, cas, acc, own⟩).title =
        (getMessageAndActionForLiquidityProvider content
          ⟨st, tm, dp, "0", ls, dl, blk, cas, acc, own⟩).title ∧
      (getMessageAndActionForLiquidityProvider content
          ⟨st, tm, dp, "not-a-number", ls, dl, blk, cas, acc, own⟩).action =
        (getMessageAndActionForLiquidityProvider content
          ⟨st, tm, dp, "0", ls, dl, blk, cas, acc, own⟩).action := by
  simp only [getMessageAndActionForLiquidityProvider, coerceNumber_nan,
    coerceNumber_zero]
  split_ifs <;> simp

/-- The claim-C5 snapshot with a malformed deadline string. -/
def snapC5 : FactSnapshot :=
  ⟨.STARTED, false, false, "5", none, "abc", 150, true, some "0xA", none⟩

/-- Counterexample to claim C5 as stated: on a malformed deadline string
the remaining-blocks suffix renders `NaN`, not the value `0 - currentBlock`
that a 0-coercion would produce. -/
theorem C5_malformed_deadline_counterexample :
    getRemainingBlocksMessage snapC5 =
        "\n\nNaN blocks left for migration deadline" ∧
      getRemainingBlocksMessage snapC5 ≠
        "\n\n" ++ toString (0 - snapC5.block) ++
          " blocks left for migration deadline" := by decide

/-- Claim C5 (amended): a deadline string with no leading integer makes
`parseInt` produce `NaN`; no error is raised, but the suffix renders the
non-numeric text `NaN blocks left for migration deadline` instead of a
0-coerced count. -/
theorem C5_malformed_deadline_renders_nan (snap : FactSnapshot)
    (h : jsParseInt snap.deadline = none) :
    getRemainingBlocksMessage snap =
      "\n\nNaN blocks left for migration deadline" := by
  unfold getRemainingBlocksMessage
  rw [h]
  rfl

/-- Witness for C5 (amended) at the concrete malformed deadline `"abc"`. -/
theorem C5_malformed_deadline_renders_nan_witness :
    jsParseInt snapC5.deadline = none ∧
      getRemainingBlocksMessage snapC5 =
        "\n\nNaN blocks left for migration deadline" :=
  ⟨by decide, C5_malformed_deadline_renders_nan snapC5 (by decide)⟩

/-- Claim C7: with phase `STARTED`, an open deadline, a positive coerced
pool-share balance and locks open, the resolver grants `LOCK_SHARES` with
the `migrationStarted` title, and the message is the `migrationStarted`
text with the locked-shares suffix and the remaining-blocks suffix
appended. -/
theorem C7_started_lock_shares (content : ContentCatalog) (snap : FactSnapshot)
    (h1 : snap.status = MigrationStatus.STARTED)
    (h2 : snap.deadlinePassed = false)
    (h3 : 0 < coerceNumber snap.poolShares)
    (h4 : snap.canAddShares = true) :
    getMessageAndActionForLiquidityProvider content snap =
      ⟨content.migrationStarted.title,
        content.migrationStarted.text ++ getLockedSharesMessage snap ++
          getRemainingBlocksMessage snap,
        MigrationAction.LOCK_SHARES⟩ := by
  unfold getMessageAndActionForLiquidityProvider
  simp [h1, h2, h3, h4]

/-- A snapshot satisfying all four hypotheses of C7. -/
def snapC7 : FactSnapshot :=
  ⟨.STARTED, false, false, "5", some "12", "100", 50, true, some "0xA", none⟩

/-- Witness for C7 at a concrete snapshot with positive pool shares. -/
theorem C7_started_lock_shares_witness :
    0 < coerceNumber snapC7.poolShares ∧
      getMessageAndActionForLiquidityProvider cat0 snapC7 =
        ⟨cat0.migrationStarted.title,
          cat0.migrationStarted.text ++ getLockedSharesMessage snapC7 ++
            getRemainingBlocksMessage snapC7,
          MigrationAction.LOCK_SHARES⟩ :=
  ⟨by decide, C7_started_lock_shares cat0 snapC7 rfl rfl (by decide) rfl⟩

end Migration
